import Mathlib

/-!
Verification of the Myrtille RDP-to-web bridge core (FreeRDP Windows client fork).

The definitions below are a shallow embedding of the three source files:
* `src/unnamed/part_000` — the current `wf_myrtille` implementation (session state,
  capture hooks `wf_myrtille_send_screen` / `wf_myrtille_send_region` /
  `wf_myrtille_send_cursor`, `processImage`, `sendImage`, `sendMessage`, the
  inputs-pipe reader `processInputsPipe` and its command dispatcher);
* `src/client/Windows/wf_myrtille.cpp` — the legacy variant (only its `sendImage`
  wire layout is embedded, as `legacySendImageBytes`);
* `src/channels/printer/client/printer_win.c` — the printer relay
  (`printer_win_create_printjob`, `printer_win_close_printjob`).

External collaborators (GDI+, the image codecs, the pipes, the RDP input facade,
the spooler) are modelled as oracles/parameters: an encoder oracle supplies the
encoded byte payloads, pipe writes carry a success flag, and calls into the RDP
facade are recorded as events.  Machine `int`s are modelled as `Int` with the
truncated division/modulus (`Int.tdiv` / `Int.tmod`) that C uses; serialized
`u32` fields take the low 32 bits of the two's-complement value, which is
`value % 2 ^ 32` on `Int`.
-/

namespace Myrtille

/-- `INT_MAX` of a 32-bit `int`. -/
def INT32_MAX : Int := 2147483647

/-- `int32ToBytes` (part_000 lines 1573-1580): serialize the low 32 bits of an `int`
little-endian.  `value % 4294967296` on `Int` is the two's-complement low word,
matching the C expression `value & 0xFF` / `(value >> 8) & 0xFF` / etc. -/
def int32ToBytes (value : Int) : List Nat :=
  let v : Nat := (value % 4294967296).toNat
  [v % 256, v / 256 % 256, v / 65536 % 256, v / 16777216 % 256]

/-- Read a little-endian u32 from a byte list at offset `off` (missing bytes read 0).
This is the observer used to state the wire-format claims. -/
def readLE32 (bytes : List Nat) (off : Nat) : Nat :=
  bytes.getD off 0 + 256 * bytes.getD (off + 1) 0 + 65536 * bytes.getD (off + 2) 0 +
    16777216 * bytes.getD (off + 3) 0

/-- The metadata + payload handed to `sendImage` (its scalar parameters). -/
structure FrameRec where
  idx : Int
  posX : Int
  posY : Int
  width : Int
  height : Int
  format : Int
  quality : Int
  fullscreen : Bool
  payload : List Nat
  deriving DecidableEq, Repr

/-- C `bool` to `int` conversion used when serializing the fullscreen flag. -/
def boolToInt (b : Bool) : Int := if b then 1 else 0

/-- Byte image of the frame buffer assembled by `sendImage` in part_000
(lines 1485-1519): `[u32 size+36][u32 tag=0][u32 idx][u32 posX][u32 posY]
[u32 width][u32 height][u32 format][u32 quality][u32 fullscreen][payload]`. -/
def sendImageBytes (f : FrameRec) : List Nat :=
  int32ToBytes ((f.payload.length : Int) + 36) ++ int32ToBytes 0 ++ int32ToBytes f.idx ++
    int32ToBytes f.posX ++ int32ToBytes f.posY ++ int32ToBytes f.width ++
    int32ToBytes f.height ++ int32ToBytes f.format ++ int32ToBytes f.quality ++
    int32ToBytes (boolToInt f.fullscreen) ++ f.payload

/-- Byte image of the frame buffer assembled by `sendImage` in the legacy variant
`src/client/Windows/wf_myrtille.cpp` (lines 1278-1302): `[u32 tag=0][u32 idx]
[u32 posX][u32 posY][u32 width][u32 height][u32 format][u32 quality]
[u32 fullscreen][payload]` — no leading total-length field. -/
def legacySendImageBytes (f : FrameRec) : List Nat :=
  int32ToBytes 0 ++ int32ToBytes f.idx ++ int32ToBytes f.posX ++ int32ToBytes f.posY ++
    int32ToBytes f.width ++ int32ToBytes f.height ++ int32ToBytes f.format ++
    int32ToBytes f.quality ++ int32ToBytes (boolToInt f.fullscreen) ++ f.payload

/-- UTF-8 bytes of a string (std::string byte content). -/
def strBytes (s : String) : List Nat := s.toUTF8.toList.map (fun b => b.toNat)

/-- Byte image of a text message assembled by `sendMessage` (part_000 lines
1283-1290): `[u32 len][len bytes]`. -/
def sendMessageBytes (msg : String) : List Nat :=
  int32ToBytes ((strBytes msg).length : Int) ++ strBytes msg

/-- The mutable `wf_myrtille` session state (part_000 lines 143-177), restricted to
the fields the core logic reads and writes.  Pipe handles, GDI+ handles and the
encoder configuration are external resources and are not part of the state. -/
structure MyrState where
  processInputs : Bool
  imageEncoding : Int
  imageQuality : Int
  imageQuantity : Int
  imageCount : Int
  imageIdx : Int
  scaleDisplay : Bool
  clientWidth : Int
  clientHeight : Int
  clipboardText : String
  clipboardUpdated : Bool
  deriving DecidableEq, Repr

/-- Session defaults set by `wf_myrtille_start` (part_000 lines 240-257):
encoding AUTO (0), quality HIGH (50), quantity 100, counters 0, no scaling,
client dims initialized to the desktop dims. -/
def initState (dw dh : Int) : MyrState :=
  { processInputs := true
    imageEncoding := 0
    imageQuality := 50
    imageQuantity := 100
    imageCount := 0
    imageIdx := 0
    scaleDisplay := false
    clientWidth := dw
    clientHeight := dh
    clipboardText := "clipboard|"
    clipboardUpdated := false }

/-- Encoder oracle: the bytes the external GDI+/WebP encoders produce for the
bitmap currently being processed.  `processImage` only inspects sizes and
forwards the chosen payload. -/
structure EncOracle where
  pngBytes : List Nat
  jpgBytes : List Nat
  webpBytes : List Nat
  deriving DecidableEq, Repr

/-- Cursor compositor oracle for `wf_myrtille_send_cursor`: whether the composed
cursor bitmap contains an opaque pixel (`bmpOk`), the PNG encoding of the
composed cursor, the hotspot and the cursor dimensions. -/
structure CursorOracle where
  bmpOk : Bool
  pngBytes : List Nat
  hotspotX : Int
  hotspotY : Int
  width : Int
  height : Int
  deriving DecidableEq, Repr

/-- The external environment of one run: settings, resource availability, the
encoder oracles and the success of pipe writes. -/
structure Env where
  sessionId : Int
  hasPrimary : Bool
  desktopWidth : Int
  desktopHeight : Int
  enc : EncOracle
  cursor : CursorOracle
  imageWriteOk : Bool
  textWriteOk : Bool
  deriving DecidableEq, Repr

/-- Calls into the RDP facade and writes to the updates channel, recorded as
events.  Settings mutations performed by connection commands are recorded with
their raw argument string. -/
inductive Event where
  | frame (f : FrameRec)
  | text (msg : String)
  | keyUnicode (down : Bool) (code : Int)
  | keyScanEx (down : Bool) (extended : Bool) (scancode : Int)
  | keyScan (down : Bool) (scancode : Int)
  | mouse (flags : Nat) (x : Int) (y : Int)
  | clipboardFormatRequest
  | connectClient
  | setServerAddress (args : String)
  | setVmGuid (args : String)
  | setDomain (args : String)
  | setUsername (args : String)
  | setPassword (args : String)
  | setProgram (args : String)
  deriving DecidableEq, Repr

/-- `sendMessage` (part_000 lines 1279-1299): frame `msg` as `[u32 len][bytes]`
and write it to the updates pipe.  A `WriteFile` failure is only logged — the
function returns with the session state unchanged in either case. -/
def sendMessage (st : MyrState) (msg : String) (writeOk : Bool) : MyrState × List Nat :=
  if writeOk then (st, sendMessageBytes msg) else (st, sendMessageBytes msg)

/-- `sendImage` (part_000 lines 1476-1571): assemble the frame buffer and write
it; on `WriteFile` failure set `processInputs := false` ("pipe problem; exit"). -/
def sendImage (st : MyrState) (f : FrameRec) (writeOk : Bool) : MyrState × List Nat :=
  (if writeOk then st else { st with processInputs := false }, sendImageBytes f)

/-- `processImage` (part_000 lines 1301-1430).  Quality: PNG encoding forces
HIGHEST (100); otherwise HIGHER (75) for fullscreen, else the session quality.
Encoding 1 (PNG) or 0 (AUTO, when the PNG payload is not larger than the JPEG
payload) choose PNG — format 1 and quality overwritten to 100; otherwise within
{0,1,2} choose JPEG — format 2; encoding 3 chooses WEBP — format 3; any other
encoding value leaves the stream NULL and nothing is sent.  Before sending,
`imageIdx` is reset to 0 if it equals `INT_MAX`, then pre-incremented; the frame
is sent only when the chosen payload is nonempty. -/
def processImage (env : Env) (st : MyrState) (left top right bottom : Int)
    (fullscreen : Bool) : MyrState × List Event :=
  let quality : Int :=
    if st.imageEncoding = 1 then 100 else if fullscreen then 75 else st.imageQuality
  let chosen : Option (Int × Int × List Nat) :=
    if st.imageEncoding = 1 ∨ st.imageEncoding = 2 ∨ st.imageEncoding = 0 then
      if st.imageEncoding = 1 ∨
          (st.imageEncoding = 0 ∧ env.enc.pngBytes.length ≤ env.enc.jpgBytes.length) then
        some (1, 100, env.enc.pngBytes)
      else
        some (2, quality, env.enc.jpgBytes)
    else if st.imageEncoding = 3 then
      some (3, quality, env.enc.webpBytes)
    else
      none
  let st1 := if st.imageIdx = INT32_MAX then { st with imageIdx := 0 } else st
  match chosen with
  | none => (st1, [])
  | some (fmt, q, payload) =>
    if payload.length > 0 then
      let st2 := { st1 with imageIdx := st1.imageIdx + 1 }
      let f : FrameRec :=
        { idx := st2.imageIdx, posX := left, posY := top, width := right - left,
          height := bottom - top, format := fmt, quality := q,
          fullscreen := fullscreen, payload := payload }
      ((sendImage st2 f env.imageWriteOk).1, [Event.frame f])
    else
      (st1, [])

/-- `wf_myrtille_send_screen` (part_000 lines 340-392): no-op without a session id
or a primary surface; captures the full screen (scaled to the client dims when
`scaleDisplay` is set) and processes it as a fullscreen image. -/
def wf_myrtille_send_screen (env : Env) (st : MyrState) : MyrState × List Event :=
  if env.sessionId = 0 then (st, [])
  else if ¬env.hasPrimary then (st, [])
  else
    processImage env st 0 0
      (if st.scaleDisplay then st.clientWidth else env.desktopWidth)
      (if st.scaleDisplay then st.clientHeight else env.desktopHeight) true

/-- `wf_myrtille_send_region` (part_000 lines 394-505): bounds check, then the ips
regulator (reset `imageCount` at `INT_MAX`, increment, and for quantity in
{5,10,20,25,50} drop unless `imageCount % (100 / quantity) = 0`), then capture —
scaling the region rectangle to client coordinates when `scaleDisplay` is set
and the client dims differ from the desktop dims — and process it. -/
def wf_myrtille_send_region (env : Env) (st : MyrState)
    (left top right bottom : Int) : MyrState × List Event :=
  if env.sessionId = 0 then (st, [])
  else if ¬env.hasPrimary then (st, [])
  else if left < 0 ∨ left > env.desktopWidth ∨ top < 0 ∨ top > env.desktopHeight ∨
      right < 0 ∨ right > env.desktopWidth ∨ bottom < 0 ∨ bottom > env.desktopHeight ∨
      left > right ∨ top > bottom then (st, [])
  else
    let st0 := if st.imageCount = INT32_MAX then { st with imageCount := 0 } else st
    let st1 := { st0 with imageCount := st0.imageCount + 1 }
    if (st1.imageQuantity = 5 ∨ st1.imageQuantity = 10 ∨ st1.imageQuantity = 20 ∨
        st1.imageQuantity = 25 ∨ st1.imageQuantity = 50) ∧
        Int.tmod st1.imageCount (Int.tdiv 100 st1.imageQuantity) ≠ 0 then
      (st1, [])
    else
      if ¬st1.scaleDisplay ∨
          (st1.clientWidth = env.desktopWidth ∧ st1.clientHeight = env.desktopHeight) then
        processImage env st1 left top right bottom false
      else
        processImage env st1
          (Int.tdiv (left * st1.clientWidth) env.desktopWidth)
          (Int.tdiv (top * st1.clientHeight) env.desktopHeight)
          (Int.tdiv (right * st1.clientWidth) env.desktopWidth)
          (Int.tdiv (bottom * st1.clientHeight) env.desktopHeight) false

/-- `wf_myrtille_send_cursor` (part_000 lines 507-659): compose the cursor (the
pixel loop is the cursor oracle); when the composed bitmap has an opaque pixel,
reset `imageIdx` at `INT_MAX`, and when the PNG stream is nonempty send it with
format CUR (0) and quality HIGHEST (100), hotspot as position, not fullscreen. -/
def wf_myrtille_send_cursor (env : Env) (st : MyrState) : MyrState × List Event :=
  if env.sessionId = 0 then (st, [])
  else if ¬env.hasPrimary then (st, [])
  else if env.cursor.bmpOk then
    let st1 := if st.imageIdx = INT32_MAX then { st with imageIdx := 0 } else st
    if env.cursor.pngBytes.length > 0 then
      let st2 := { st1 with imageIdx := st1.imageIdx + 1 }
      let f : FrameRec :=
        { idx := st2.imageIdx, posX := env.cursor.hotspotX, posY := env.cursor.hotspotY,
          width := env.cursor.width, height := env.cursor.height, format := 0,
          quality := 100, fullscreen := false, payload := env.cursor.pngBytes }
      ((sendImage st2 f env.imageWriteOk).1, [Event.frame f])
    else (st1, [])
  else (st, [])

/-- Mouse pointer flags (FreeRDP wire constants used by the dispatcher). -/
def PTR_FLAGS_MOVE : Nat := 0x0800

/-- PTR_FLAGS_DOWN. -/
def PTR_FLAGS_DOWN : Nat := 0x8000

/-- PTR_FLAGS_BUTTON1 (left). -/
def PTR_FLAGS_BUTTON1 : Nat := 0x1000

/-- PTR_FLAGS_BUTTON2 (right). -/
def PTR_FLAGS_BUTTON2 : Nat := 0x2000

/-- PTR_FLAGS_BUTTON3 (middle). -/
def PTR_FLAGS_BUTTON3 : Nat := 0x4000

/-- PTR_FLAGS_WHEEL. -/
def PTR_FLAGS_WHEEL : Nat := 0x0200

/-- PTR_FLAGS_WHEEL_NEGATIVE. -/
def PTR_FLAGS_WHEEL_NEGATIVE : Nat := 0x0100

/-- Accumulator for the digit run read by `atoi` / `stoi`. -/
def atoiAux : List Char → Nat → Nat
  | [], acc => acc
  | c :: cs, acc => if c.isDigit then atoiAux cs (10 * acc + (c.toNat - 48)) else acc

/-- `atoi` / `stoi` as used on the protocol arguments: all arguments this
dispatcher converts are plain decimal digit strings, so the embedding parses a
leading digit run (and reads 0 from an empty or non-numeric argument). -/
def atoi (s : String) : Int := Int.ofNat (atoiAux s.toList 0)

/-- `std::string::substr(pos, len)` for the in-range uses of the dispatcher. -/
def substr (s : String) (pos len : Nat) : String :=
  ((s.toList.drop pos).take len).asString

/-- `std::string::find(c)`: index of the first occurrence of `c`. -/
def charIdx (s : String) (c : Char) : Option Nat :=
  s.toList.findIdx? (fun a => a = c)

/-- `processMouseInput` (part_000 lines 1239-1277): parse `x-y`; when both parts
are nonempty and nonnegative, inject a mouse event, rescaling browser
coordinates back to desktop coordinates when scaling is active and the client
dims differ from the desktop dims. -/
def processMouseInput (env : Env) (st : MyrState) (input : String)
    (flags : Nat) : List Event :=
  match charIdx input '-' with
  | none => []
  | some i =>
    let mX := substr input 0 i
    let mY := substr input (i + 1) (input.length - i - 1)
    if mX ≠ "" ∧ 0 ≤ atoi mX ∧ mY ≠ "" ∧ 0 ≤ atoi mY then
      if ¬st.scaleDisplay ∨
          (st.clientWidth = env.desktopWidth ∧ st.clientHeight = env.desktopHeight) then
        [Event.mouse flags (atoi mX) (atoi mY)]
      else
        [Event.mouse flags (Int.tdiv (atoi mX * env.desktopWidth) st.clientWidth)
          (Int.tdiv (atoi mY * env.desktopHeight) st.clientHeight)]
    else []

/-- One record of the inputs stream dispatched by the `switch` in
`processInputsPipe` (part_000 lines 941-1225).  The record is the 3-character
tag followed by its arguments.  `commandMap` is a `std::map` read with
`operator[]`, so an unrecognized tag default-constructs `COMMAND` 0 =
`SEND_SERVER_ADDRESS`; the final branch below therefore covers both `SRV` and
unknown tags.  Mutations of `wfc->context.settings` and calls into the RDP
facade are recorded as events; mutations of the myrtille state are applied to
`st`. -/
def dispatchTag (env : Env) (st : MyrState) (tag args : String) :
    MyrState × List Event :=
  match tag with
  | "VMG" => (st, [Event.setVmGuid args])
  | "DOM" => (st, [Event.setDomain args])
  | "USR" => (st, [Event.setUsername args])
  | "PWD" => (st, [Event.setPassword args])
  | "PRG" => (st, [Event.setProgram args])
  | "CON" => (st, [Event.connectClient])
  | "RSZ" =>
    (match charIdx args 'x' with
     | none => st
     | some i =>
       { st with clientWidth := atoi (substr args 0 i),
                 clientHeight := atoi (substr args (i + 1) (args.length - i - 1)) }, [])
  | "KUC" =>
    (st,
     match charIdx args '-' with
     | none => []
     | some i =>
       [Event.keyUnicode (substr args (i + 1) 1 = "1") (atoi (substr args 0 i))])
  | "KSC" =>
    (st,
     match charIdx args '-' with
     | none => []
     | some i =>
       let pressed := substr args (i + 1) 1
       let scancode := atoi (substr args 0 i)
       if scancode = 73 ∨ scancode = 81 ∨ scancode = 79 ∨ scancode = 71 ∨
           scancode = 75 ∨ scancode = 72 ∨ scancode = 77 ∨ scancode = 80 then
         if pressed = "1" then [Event.keyScanEx true true scancode] else []
       else
         [Event.keyScan (pressed = "1") scancode])
  | "MMO" => (st, processMouseInput env st args PTR_FLAGS_MOVE)
  | "MLB" =>
    (st, processMouseInput env st (substr args 1 (args.length - 1))
      (if substr args 0 1 = "0" then PTR_FLAGS_BUTTON1
       else PTR_FLAGS_DOWN ||| PTR_FLAGS_BUTTON1))
  | "MMB" =>
    (st, processMouseInput env st (substr args 1 (args.length - 1))
      (if substr args 0 1 = "0" then PTR_FLAGS_BUTTON3
       else PTR_FLAGS_DOWN ||| PTR_FLAGS_BUTTON3))
  | "MRB" =>
    (st, processMouseInput env st (substr args 1 (args.length - 1))
      (if substr args 0 1 = "0" then PTR_FLAGS_BUTTON2
       else PTR_FLAGS_DOWN ||| PTR_FLAGS_BUTTON2))
  | "MWU" =>
    (st, processMouseInput env st args (PTR_FLAGS_WHEEL ||| 0x0078))
  | "MWD" =>
    (st, processMouseInput env st args
      (PTR_FLAGS_WHEEL ||| PTR_FLAGS_WHEEL_NEGATIVE ||| 0x0088))
  | "STA" => ((sendMessage st "reload" env.textWriteOk).1, [Event.text "reload"])
  | "DBG" => ((sendMessage st "reload" env.textWriteOk).1, [Event.text "reload"])
  | "CMP" => ((sendMessage st "reload" env.textWriteOk).1, [Event.text "reload"])
  | "SCA" =>
    let st1 := { st with scaleDisplay := args ≠ "0" }
    let st2 :=
      match charIdx args 'x' with
      | none => st1
      | some i =>
        { st1 with clientWidth := atoi (substr args 0 i),
                   clientHeight := atoi (substr args (i + 1) (args.length - i - 1)) }
    ((sendMessage st2 "reload" env.textWriteOk).1, [Event.text "reload"])
  | "ECD" => ({ st with imageEncoding := atoi args, imageQuality := 50 }, [])
  | "QLT" => ({ st with imageQuality := atoi args }, [])
  | "QNT" => ({ st with imageQuantity := atoi args }, [])
  | "FSU" => wf_myrtille_send_screen env st
  | "CLP" =>
    if st.clipboardUpdated then (st, [Event.clipboardFormatRequest])
    else ((sendMessage st st.clipboardText env.textWriteOk).1,
      [Event.text st.clipboardText])
  | "CLO" => ({ st with processInputs := false }, [])
  | _ => (st, [Event.setServerAddress args])

/-- Dispatch one record: split off the 3-character tag (`command`) and the
argument remainder (`commandArgs`), then switch on the tag. -/
def dispatch (env : Env) (st : MyrState) (input : String) : MyrState × List Event :=
  dispatchTag env st (substr input 0 3) (substr input 3 (input.length - 3))

/-- The `for` loop over the records of one batch (part_000 lines 941-1225):
every record of the batch is dispatched, regardless of the `processInputs`
flag, which is only re-read by the enclosing `while`. -/
def processBatch (env : Env) (st : MyrState) : List String → MyrState × List Event
  | [] => (st, [])
  | c :: cs =>
    let r1 := dispatch env st c
    let r2 := processBatch env r1.1 cs
    (r2.1, r1.2 ++ r2.2)

/-- The record accumulator of the `std::getline` loop: emit the pending record
at each separator; at end of input emit the pending record; after a separator
that ends the input, `getline` fails immediately and emits nothing more. -/
def splitTabsGo : List Char → List Char → List String
  | [], acc => [acc.asString]
  | c :: cs, acc =>
    if c = '\t' then
      acc.asString ::
        (match cs with
         | [] => []
         | _ :: _ => splitTabsGo cs [])
    else
      splitTabsGo cs (acc ++ [c])

/-- The tab split performed with `std::getline` over the read buffer
(part_000 lines 871-885, 937): splits on `\t`; a single trailing separator
yields no trailing empty record and the empty string yields no records. -/
def splitTabs (s : String) : List String :=
  match s.toList with
  | [] => []
  | l => splitTabsGo l []

/-- One iteration of the reader loop body (part_000 lines 895-1227): a failed
`ReadFile` (`none`) sets `processInputs := false` and dispatches nothing; a
successful read of a nonempty buffer splits it on tabs and dispatches every
record; a zero-byte read does nothing. -/
def readerIteration (env : Env) (st : MyrState) :
    Option String → MyrState × List Event
  | none => ({ st with processInputs := false }, [])
  | some msg =>
    if msg.length > 0 then processBatch env st (splitTabs msg) else (st, [])

/-- The reader `while (myrtille->processInputs)` loop (part_000 lines 893-1228),
driven by the list of pending read results: the flag is evaluated before each
read, so an iteration that clears it finishes in full and the loop exits before
the next read. -/
def readerLoop (env : Env) (st : MyrState) :
    List (Option String) → MyrState × List Event
  | [] => (st, [])
  | r :: rs =>
    if st.processInputs then
      let r1 := readerIteration env st r
      let r2 := readerLoop env r1.1 rs
      (r2.1, r1.2 ++ r2.2)
    else
      (st, [])

/-- A print job (printer_win.c `rdp_win_print_job`): its id and the document
name passed to `StartDocPrinter`. -/
structure WinPrintJob where
  id : Nat
  docName : String
  deriving DecidableEq, Repr

/-- A redirected printer (printer_win.c `rdp_win_printer`): its name and the
current job, `none` when idle.  The C struct holds at most one `printjob`
pointer, hence at most one current job per printer. -/
structure WinPrinter where
  name : String
  printjob : Option WinPrintJob
  deriving DecidableEq, Repr

/-- `printer_win_create_printjob` (printer_win.c lines 140-217): fail returning
NULL while a job exists — before any allocation or spooler call, so the printer
is untouched; otherwise build the document name ("FREERDPjob" plus process id
and tick count for the "Myrtille PDF" printer in a myrtille session), and fail
without installing a job when `StartDocPrinter` or `StartPagePrinter` fails
(spooler outcomes are the two boolean oracles). -/
def printer_win_create_printjob (p : WinPrinter) (id : Nat) (sessionId : Int)
    (pid tick : Nat) (startDocOk startPageOk : Bool) :
    Option WinPrintJob × WinPrinter :=
  if p.printjob.isSome then (none, p)
  else
    let docName :=
      if sessionId ≠ 0 ∧ p.name = "Myrtille PDF" then
        "FREERDPjob" ++ toString pid ++ toString tick
      else "FREERDPjob"
    if ¬startDocOk then (none, p)
    else if ¬startPageOk then (none, p)
    else (some ⟨id, docName⟩, { p with printjob := some ⟨id, docName⟩ })

/-- `printer_win_close_printjob` (printer_win.c lines 99-138): end the page and
the document (failures only logged), notify the gateway with a
`printjob|<doc>.pdf` message for the "Myrtille PDF" printer in a myrtille
session, and clear `printer->printjob`. -/
def printer_win_close_printjob (p : WinPrinter) (job : WinPrintJob)
    (sessionId : Int) : WinPrinter × List Event :=
  ({ p with printjob := none },
   if sessionId ≠ 0 ∧ p.name = "Myrtille PDF" then
     [Event.text ("printjob|" ++ job.docName ++ ".pdf")]
   else [])

/-! ### Helper lemmas on the wire encoding -/

theorem le32_reconstruct (n : Nat) (h : n < 4294967296) :
    n % 256 + 256 * (n / 256 % 256) + 65536 * (n / 65536 % 256) +
      16777216 * (n / 16777216 % 256) = n := by
  omega

theorem readLE32_four (a b c d : Nat) (rest : List Nat) :
    readLE32 (a :: b :: c :: d :: rest) 0 = a + 256 * b + 65536 * c + 16777216 * d := rfl

theorem getD_cons_add_four (a b c d x : Nat) (l : List Nat) (k : Nat) :
    (a :: b :: c :: d :: l).getD (k + 4) x = l.getD k x := by
  have h : k + 4 = k + 1 + 1 + 1 + 1 := by omega
  rw [h]
  simp [List.getD_cons_succ]

theorem readLE32_skip4 (a b c d : Nat) (rest : List Nat) (k : Nat) :
    readLE32 (a :: b :: c :: d :: rest) (k + 4) = readLE32 rest k := by
  unfold readLE32
  have h1 : k + 4 + 1 = k + 1 + 4 := by omega
  have h2 : k + 4 + 2 = k + 2 + 4 := by omega
  have h3 : k + 4 + 3 = k + 3 + 4 := by omega
  rw [h1, h2, h3, getD_cons_add_four, getD_cons_add_four, getD_cons_add_four,
    getD_cons_add_four]

theorem readLE32_int32_zero (v : Int) (rest : List Nat) :
    readLE32 (int32ToBytes v ++ rest) 0 = (v % 4294967296).toNat := by
  show readLE32 ((v % 4294967296).toNat % 256 :: (v % 4294967296).toNat / 256 % 256 ::
      (v % 4294967296).toNat / 65536 % 256 ::
      (v % 4294967296).toNat / 16777216 % 256 :: rest) 0 = (v % 4294967296).toNat
  rw [readLE32_four]
  exact le32_reconstruct _ (by omega)

theorem readLE32_int32_skip (v : Int) (rest : List Nat) (k : Nat) :
    readLE32 (int32ToBytes v ++ rest) (k + 4) = readLE32 rest k := by
  show readLE32 ((v % 4294967296).toNat % 256 :: (v % 4294967296).toNat / 256 % 256 ::
      (v % 4294967296).toNat / 65536 % 256 ::
      (v % 4294967296).toNat / 16777216 % 256 :: rest) (k + 4) = readLE32 rest k
  exact readLE32_skip4 _ _ _ _ rest k

/-- Reading the `i`-th little-endian u32 of a sequence of serialized ints
followed by a payload recovers the low 32 bits of the `i`-th int. -/
theorem readLE32_join (vals : List Int) (payload : List Nat) (i : Nat)
    (hi : i < vals.length) :
    readLE32 ((vals.map int32ToBytes).flatten ++ payload) (4 * i) =
      ((vals.getD i 0) % 4294967296).toNat := by
  induction vals generalizing i with
  | nil => simp at hi
  | cons v vs ih =>
    cases i with
    | zero =>
      show readLE32 (int32ToBytes v ++ ((vs.map int32ToBytes).flatten ++ payload)) 0 = _
      rw [readLE32_int32_zero]
      rfl
    | succ i =>
      have h4 : 4 * (i + 1) = 4 * i + 4 := by omega
      rw [h4]
      show readLE32 (int32ToBytes v ++ ((vs.map int32ToBytes).flatten ++ payload))
          (4 * i + 4) = _
      rw [readLE32_int32_skip]
      exact ih i (by simpa using hi)

theorem sendImageBytes_as_join (f : FrameRec) :
    sendImageBytes f =
      (([((f.payload.length : Int) + 36), 0, f.idx, f.posX, f.posY, f.width, f.height,
        f.format, f.quality, boolToInt f.fullscreen].map int32ToBytes).flatten ++
        f.payload) := by
  simp [sendImageBytes, List.flatten]

/-! ### C1: image frame wire layout -/

/-- A concrete frame used by the C1 theorems: idx 1, position (2,3), 4 by 5,
format PNG, quality 100, fullscreen, 3 payload bytes. -/
def c1Frame : FrameRec :=
  { idx := 1, posX := 2, posY := 3, width := 4, height := 5, format := 1,
    quality := 100, fullscreen := true, payload := [9, 9, 9] }

/-- C1, counterexample: the legacy `sendImage` of
`src/client/Windows/wf_myrtille.cpp` writes no leading total-length field — its
frame begins directly with the tag, so the first u32 of an emitted frame reads
0 and not `36 + payload_len` as the claim states for every emitted frame. -/
theorem C1_counterexample :
    readLE32 (legacySendImageBytes c1Frame) 0 ≠ 36 + c1Frame.payload.length := by
  decide

/-- C1 (amended): every image frame written by `sendImage` of
`src/unnamed/part_000` is laid out as `[u32 total_len][u32 tag][u32 idx]
[u32 pos_x][u32 pos_y][u32 width][u32 height][u32 format][u32 quality]
[u32 fullscreen_flag][payload]` with every integer little-endian, tag 0 and
`total_len = 36 + payload_len`; the legacy variant of `sendImage`
(src/client/Windows/wf_myrtille.cpp) omits the leading total-length field and
begins with the tag. -/
theorem C1_frame_layout (f : FrameRec)
    (h1 : 0 ≤ f.idx) (h2 : f.idx < 2147483648)
    (h3 : 0 ≤ f.posX) (h4 : f.posX < 2147483648)
    (h5 : 0 ≤ f.posY) (h6 : f.posY < 2147483648)
    (h7 : 0 ≤ f.width) (h8 : f.width < 2147483648)
    (h9 : 0 ≤ f.height) (h10 : f.height < 2147483648)
    (h11 : 0 ≤ f.format) (h12 : f.format < 2147483648)
    (h13 : 0 ≤ f.quality) (h14 : f.quality < 2147483648)
    (h15 : f.payload.length + 36 < 2147483648) :
    readLE32 (sendImageBytes f) 0 = 36 + f.payload.length ∧
    readLE32 (sendImageBytes f) 4 = 0 ∧
    readLE32 (sendImageBytes f) 8 = f.idx.toNat ∧
    readLE32 (sendImageBytes f) 12 = f.posX.toNat ∧
    readLE32 (sendImageBytes f) 16 = f.posY.toNat ∧
    readLE32 (sendImageBytes f) 20 = f.width.toNat ∧
    readLE32 (sendImageBytes f) 24 = f.height.toNat ∧
    readLE32 (sendImageBytes f) 28 = f.format.toNat ∧
    readLE32 (sendImageBytes f) 32 = f.quality.toNat ∧
    readLE32 (sendImageBytes f) 36 = (boolToInt f.fullscreen).toNat ∧
    (sendImageBytes f).drop 40 = f.payload ∧
    (sendImageBytes f).length = 40 + f.payload.length := by
  have key : ∀ i : Nat, i < 10 →
      readLE32 (sendImageBytes f) (4 * i) =
        (([((f.payload.length : Int) + 36), 0, f.idx, f.posX, f.posY, f.width, f.height,
          f.format, f.quality, boolToInt f.fullscreen].getD i 0) % 4294967296).toNat := by
    intro i hi
    rw [sendImageBytes_as_join]
    exact readLE32_join _ _ i (by simpa using hi)
  refine ⟨?_, ?_, ?_, ?_, ?_, ?_, ?_, ?_, ?_, ?_, ?_, ?_⟩
  · have h := key 0 (by omega)
    norm_num [List.getD] at h
    rw [show (0 : Nat) = 4 * 0 from rfl, h]
    omega
  · have h := key 1 (by omega)
    norm_num [List.getD] at h
    rw [show (4 : Nat) = 4 * 1 from rfl, h]
  · have h := key 2 (by omega)
    norm_num [List.getD] at h
    rw [show (8 : Nat) = 4 * 2 from rfl, h]
    omega
  · have h := key 3 (by omega)
    norm_num [List.getD] at h
    rw [show (12 : Nat) = 4 * 3 from rfl, h]
    omega
  · have h := key 4 (by omega)
    norm_num [List.getD] at h
    rw [show (16 : Nat) = 4 * 4 from rfl, h]
    omega
  · have h := key 5 (by omega)
    norm_num [List.getD] at h
    rw [show (20 : Nat) = 4 * 5 from rfl, h]
    omega
  · have h := key 6 (by omega)
    norm_num [List.getD] at h
    rw [show (24 : Nat) = 4 * 6 from rfl, h]
    omega
  · have h := key 7 (by omega)
    norm_num [List.getD] at h
    rw [show (28 : Nat) = 4 * 7 from rfl, h]
    omega
  · have h := key 8 (by omega)
    norm_num [List.getD] at h
    rw [show (32 : Nat) = 4 * 8 from rfl, h]
    omega
  · have h := key 9 (by omega)
    norm_num [List.getD] at h
    rw [show (36 : Nat) = 4 * 9 from rfl, h]
    cases f.fullscreen <;> simp [boolToInt]
  · rfl
  · simp [sendImageBytes, int32ToBytes]
    omega

/-- C1, witness: the layout theorem evaluated at the concrete frame `c1Frame`. -/
theorem C1_witness :
    readLE32 (sendImageBytes c1Frame) 0 = 36 + c1Frame.payload.length ∧
    readLE32 (sendImageBytes c1Frame) 4 = 0 ∧
    readLE32 (sendImageBytes c1Frame) 8 = c1Frame.idx.toNat ∧
    readLE32 (sendImageBytes c1Frame) 12 = c1Frame.posX.toNat ∧
    readLE32 (sendImageBytes c1Frame) 16 = c1Frame.posY.toNat ∧
    readLE32 (sendImageBytes c1Frame) 20 = c1Frame.width.toNat ∧
    readLE32 (sendImageBytes c1Frame) 24 = c1Frame.height.toNat ∧
    readLE32 (sendImageBytes c1Frame) 28 = c1Frame.format.toNat ∧
    readLE32 (sendImageBytes c1Frame) 32 = c1Frame.quality.toNat ∧
    readLE32 (sendImageBytes c1Frame) 36 = (boolToInt c1Frame.fullscreen).toNat ∧
    (sendImageBytes c1Frame).drop 40 = c1Frame.payload ∧
    (sendImageBytes c1Frame).length = 40 + c1Frame.payload.length :=
  C1_frame_layout c1Frame (by decide) (by decide) (by decide) (by decide) (by decide)
    (by decide) (by decide) (by decide) (by decide) (by decide) (by decide) (by decide)
    (by decide) (by decide) (by decide)

/-! ### Concrete fixtures shared by the claim witnesses and counterexamples -/

/-- A concrete cursor oracle: nonempty composed cursor, 1-byte PNG, hotspot
(2,3), 32 by 32. -/
def baseCursor : CursorOracle :=
  { bmpOk := true, pngBytes := [5], hotspotX := 2, hotspotY := 3,
    width := 32, height := 32 }

/-- A concrete environment: live session, primary surface present, 1024 by 768
desktop, PNG 1 byte and JPEG 2 bytes (so AUTO picks PNG), successful writes. -/
def baseEnv : Env :=
  { sessionId := 1, hasPrimary := true, desktopWidth := 1024, desktopHeight := 768,
    enc := { pngBytes := [7], jpgBytes := [8, 8], webpBytes := [9] },
    cursor := baseCursor, imageWriteOk := true, textWriteOk := true }

/-! ### Shape lemmas for the capture pipeline -/

/-- `processImage` either emits nothing or exactly one frame whose position is
the rectangle it was given, whose index is the pre-incremented (and
`INT_MAX`-wrapped) image index, and whose quality is 100 for format PNG and the
fullscreen-or-session quality otherwise. -/
theorem processImage_shape (env : Env) (st : MyrState) (l t r b : Int) (fs : Bool) :
    (processImage env st l t r b fs).2 = [] ∨
    ∃ q payload fmt,
      ((fmt = (1 : Int) ∧ q = (100 : Int)) ∨
        (fmt ≠ 1 ∧ q = if fs then 75 else st.imageQuality)) ∧
      (processImage env st l t r b fs).2 =
        [Event.frame
          { idx := (if st.imageIdx = INT32_MAX then 0 else st.imageIdx) + 1,
            posX := l, posY := t, width := r - l, height := b - t,
            format := fmt, quality := q, fullscreen := fs, payload := payload }] ∧
      ((processImage env st l t r b fs).1).imageIdx =
        (if st.imageIdx = INT32_MAX then 0 else st.imageIdx) + 1 := by
  simp only [processImage]
  split
  · next heq =>
    left
    rfl
  · next fmt q payload heq =>
    split
    · next hp =>
      right
      refine ⟨q, payload, fmt, ?_, ?_, ?_⟩
      · split at heq
        · split at heq
          · simp only [Option.some.injEq, Prod.mk.injEq] at heq
            obtain ⟨hf, hq, hpl⟩ := heq
            exact Or.inl ⟨hf.symm, hq.symm⟩
          · next hcond =>
            push_neg at hcond
            simp only [Option.some.injEq, Prod.mk.injEq] at heq
            obtain ⟨hf, hq, hpl⟩ := heq
            refine Or.inr ⟨?_, ?_⟩
            · rw [← hf]
              decide
            · rw [if_neg hcond.1] at hq
              exact hq.symm
        · next hcond =>
          split at heq
          · simp only [Option.some.injEq, Prod.mk.injEq] at heq
            obtain ⟨hf, hq, hpl⟩ := heq
            push_neg at hcond
            refine Or.inr ⟨?_, ?_⟩
            · rw [← hf]
              decide
            · rw [if_neg hcond.1] at hq
              exact hq.symm
          · simp at heq
      · by_cases hm : st.imageIdx = INT32_MAX <;> simp [hm]
      · by_cases hm : st.imageIdx = INT32_MAX <;>
          cases hw : env.imageWriteOk <;> simp [sendImage, hm, hw]
    · next hp =>
      left
      rfl

/-- Every frame emitted by `processImage` has the given rectangle as position,
the wrapped pre-incremented index (also recorded back in the state), and the
PNG/lossy quality rule. -/
theorem processImage_emit (env : Env) (st : MyrState) (l t r b : Int) (fs : Bool)
    (f : FrameRec) (h : Event.frame f ∈ (processImage env st l t r b fs).2) :
    f.posX = l ∧ f.posY = t ∧ f.width = r - l ∧ f.height = b - t ∧
    f.fullscreen = fs ∧
    f.idx = (if st.imageIdx = INT32_MAX then 0 else st.imageIdx) + 1 ∧
    ((processImage env st l t r b fs).1).imageIdx = f.idx ∧
    ((f.format = 1 ∧ f.quality = 100) ∨
      (f.format ≠ 1 ∧ f.quality = if fs then 75 else st.imageQuality)) := by
  rcases processImage_shape env st l t r b fs with hsh | ⟨q, payload, fmt, hq, hev, hidx⟩
  · rw [hsh] at h
    simp at h
  · rw [hev] at h
    simp only [List.mem_singleton, Event.frame.injEq] at h
    subst h
    refine ⟨rfl, rfl, rfl, rfl, rfl, rfl, ?_, ?_⟩
    · rw [hidx]
    · simpa using hq

/-- Every frame emitted by `wf_myrtille_send_cursor` has format CUR (0), quality
HIGHEST (100), and the wrapped pre-incremented index, recorded in the state. -/
theorem send_cursor_emit (env : Env) (st : MyrState) (f : FrameRec)
    (h : Event.frame f ∈ (wf_myrtille_send_cursor env st).2) :
    f.format = 0 ∧ f.quality = 100 ∧
    f.idx = (if st.imageIdx = INT32_MAX then 0 else st.imageIdx) + 1 ∧
    ((wf_myrtille_send_cursor env st).1).imageIdx = f.idx := by
  unfold wf_myrtille_send_cursor at h ⊢
  by_cases h0 : env.sessionId = 0
  · simp [h0] at h
  · by_cases h1 : env.hasPrimary
    · by_cases h2 : env.cursor.bmpOk
      · by_cases h3 : env.cursor.pngBytes.length > 0
        · simp only [h0, h1, h2, h3, if_true, if_false, if_neg, not_true,
            ite_true, ite_false] at h ⊢
          by_cases hm : st.imageIdx = INT32_MAX <;>
            cases hw : env.imageWriteOk <;>
            simp [hm, hw, sendImage] at h ⊢ <;>
            simp [h]
        · simp [h0, h1, h2, h3] at h
      · simp [h0, h1, h2] at h
    · simp [h0, h1] at h

/-! ### C2: quality policy -/

/-- The frame emitted by `wf_myrtille_send_cursor baseEnv (initState 1024 768)`. -/
def c2CursorFrame : FrameRec :=
  { idx := 1, posX := 2, posY := 3, width := 32, height := 32, format := 0,
    quality := 100, fullscreen := false, payload := [5] }

/-- The frame emitted by `processImage baseEnv (initState 4 4) 0 0 4 4 false`. -/
def c2RegionFrame : FrameRec :=
  { idx := 1, posX := 0, posY := 0, width := 4, height := 4, format := 1,
    quality := 100, fullscreen := false, payload := [7] }

/-- C2, counterexample: a cursor frame has a non-PNG format (CUR = 0) and is
emitted at quality HIGHEST (100), not raised to HIGHER (75) as the claim states
for cursor frames whose format is not PNG. -/
theorem C2_counterexample :
    (wf_myrtille_send_cursor baseEnv (initState 1024 768)).2 =
      [Event.frame c2CursorFrame] ∧
    c2CursorFrame.format ≠ 1 ∧ c2CursorFrame.quality = 100 ∧
    c2CursorFrame.quality ≠ 75 := by
  decide

/-- C2 (amended): for every emitted frame the quality metadata is: HIGHEST (100)
when the chosen format is PNG, HIGHER (75) for full-screen frames whose format
is not PNG, the session policy quality verbatim for non-fullscreen lossy
frames; cursor frames are always emitted at HIGHEST (100), not HIGHER. -/
theorem C2_quality_rules :
    (∀ env st l t r b fs f, Event.frame f ∈ (processImage env st l t r b fs).2 →
      (f.format = 1 → f.quality = 100) ∧
      (f.format ≠ 1 → fs = true → f.quality = 75) ∧
      (f.format ≠ 1 → fs = false → f.quality = st.imageQuality)) ∧
    (∀ env st f, Event.frame f ∈ (wf_myrtille_send_cursor env st).2 →
      f.format = 0 ∧ f.quality = 100) := by
  constructor
  · intro env st l t r b fs f h
    rcases (processImage_emit env st l t r b fs f h).2.2.2.2.2.2.2 with hq | hq
    · exact ⟨fun _ => hq.2, fun hne _ => absurd hq.1 hne, fun hne _ => absurd hq.1 hne⟩
    · refine ⟨fun h1 => absurd h1 hq.1, fun _ hfs => ?_, fun _ hfs => ?_⟩
      · simp [hq.2, hfs]
      · simp [hq.2, hfs]
  · intro env st f h
    exact ⟨(send_cursor_emit env st f h).1, (send_cursor_emit env st f h).2.1⟩

/-- C2, witness: the quality rules evaluated on the concrete region frame and
the concrete cursor frame. -/
theorem C2_witness :
    ((c2RegionFrame.format = 1 → c2RegionFrame.quality = 100) ∧
      (c2RegionFrame.format ≠ 1 → false = true → c2RegionFrame.quality = 75) ∧
      (c2RegionFrame.format ≠ 1 → false = false →
        c2RegionFrame.quality = (initState 4 4).imageQuality)) ∧
    (c2CursorFrame.format = 0 ∧ c2CursorFrame.quality = 100) :=
  ⟨C2_quality_rules.1 baseEnv (initState 4 4) 0 0 4 4 false c2RegionFrame (by decide),
   C2_quality_rules.2 baseEnv (initState 1024 768) c2CursorFrame (by decide)⟩

/-! ### C4: image index allocation -/

/-- A session state whose last allocated image index is `INT_MAX`. -/
def c4State : MyrState := { initState 4 4 with imageIdx := 2147483647 }

/-- The frame `processImage` emits from `c4State`: its index is 1. -/
def c4Frame : FrameRec :=
  { idx := 1, posX := 0, posY := 0, width := 4, height := 4, format := 1,
    quality := 100, fullscreen := false, payload := [7] }

/-- C4, counterexample: from a state whose image index is `INT_MAX`
(2147483647), the next emitted frame has index 1, whereas the claim formula
`(idx + 1) mod 2^31` yields 0 — the counter resets to 0 and is then
pre-incremented, so it wraps to 1, never to 0. -/
theorem C4_counterexample :
    (processImage baseEnv c4State 0 0 4 4 false).2 = [Event.frame c4Frame] ∧
    c4State.imageIdx = 2147483647 ∧ c4Frame.idx = 1 ∧
    (c4State.imageIdx + 1) % 2147483648 = 0 ∧ c4Frame.idx ≠ 0 := by
  decide

/-- C4 (amended): for two frames successively allocated an image index,
`idx(F2) = idx(F1) + 1` whenever `idx(F1) < INT32_MAX`; when
`idx(F1) = INT32_MAX` the counter is reset to 0 and pre-incremented, so
`idx(F2) = 1` (the index wraps to 1, not 0).  The allocating state stores the
emitted index back, for both `processImage` and `wf_myrtille_send_cursor`. -/
theorem C4_idx_allocation :
    (∀ env st l t r b fs f, Event.frame f ∈ (processImage env st l t r b fs).2 →
      f.idx = (if st.imageIdx = INT32_MAX then 0 else st.imageIdx) + 1 ∧
      ((processImage env st l t r b fs).1).imageIdx = f.idx) ∧
    (∀ env st f, Event.frame f ∈ (wf_myrtille_send_cursor env st).2 →
      f.idx = (if st.imageIdx = INT32_MAX then 0 else st.imageIdx) + 1 ∧
      ((wf_myrtille_send_cursor env st).1).imageIdx = f.idx) := by
  constructor
  · intro env st l t r b fs f h
    have he := processImage_emit env st l t r b fs f h
    exact ⟨he.2.2.2.2.2.1, he.2.2.2.2.2.2.1⟩
  · intro env st f h
    have he := send_cursor_emit env st f h
    exact ⟨he.2.2.1, he.2.2.2⟩

/-- C4, witness: the allocation rule evaluated on a concrete emission from the
initial state (index 0 allocates index 1). -/
theorem C4_witness :
    c4Frame.idx =
      (if (initState 4 4).imageIdx = INT32_MAX then 0 else (initState 4 4).imageIdx) + 1 ∧
    ((processImage baseEnv (initState 4 4) 0 0 4 4 false).1).imageIdx = c4Frame.idx :=
  C4_idx_allocation.1 baseEnv (initState 4 4) 0 0 4 4 false c4Frame (by decide)

/-! ### C8: write-failure handling -/

/-- C8, counterexample: a failed text-message write does not set
`process_inputs` to false — `sendMessage` only logs and returns the state
unchanged, so after a failed write of "reload" the flag is still true. -/
theorem C8_counterexample :
    ((sendMessage (initState 4 4) "reload" false).1).processInputs = true := by
  decide

/-- C8 (amended): a failed image-frame write (`sendImage`) sets
`process_inputs := false`, so the input reader exits at its next loop iteration
(a reader loop on a cleared flag reads nothing further); a failed text-message
write (`sendMessage`) is only logged and leaves the state — including
`process_inputs` — unchanged.  No retry occurs in either case. -/
theorem C8_write_failure :
    (∀ st f, ((sendImage st f false).1).processInputs = false) ∧
    (∀ st msg w, sendMessage st msg w = (st, sendMessageBytes msg)) ∧
    (∀ env st rs, st.processInputs = false → readerLoop env st rs = (st, [])) := by
  refine ⟨fun st f => rfl, fun st msg w => ?_, fun env st rs h => ?_⟩
  · cases w <;> rfl
  · cases rs with
    | nil => rfl
    | cons r rs2 => simp [readerLoop, h]

/-- C8, witness: the reader loop with a cleared flag performs no further read. -/
theorem C8_witness :
    readerLoop baseEnv { initState 4 4 with processInputs := false } [some "FSU"] =
      ({ initState 4 4 with processInputs := false }, []) :=
  C8_write_failure.2.2 baseEnv { initState 4 4 with processInputs := false }
    [some "FSU"] rfl

/-! ### C9: printer one-job invariant -/

/-- C9 (confirmed): creating a print job on a printer that already holds a
current job fails (returns no job) before any spooler call and leaves the
printer unchanged, and closing a print job clears the current job.  The
printer record holds at most one `current_job` (an `Option`), so every printer
holds at most one current job at any time. -/
theorem C9_printjob :
    (∀ p id sessionId pid tick startDocOk startPageOk, p.printjob.isSome = true →
      printer_win_create_printjob p id sessionId pid tick startDocOk startPageOk =
        (none, p)) ∧
    (∀ p job sessionId,
      ((printer_win_close_printjob p job sessionId).1).printjob = none) := by
  constructor
  · intro p id sessionId pid tick startDocOk startPageOk h
    simp [printer_win_create_printjob, h]
  · intro p job sessionId
    rfl

/-- C9, witness: a busy printer refuses a second job and close clears the job. -/
theorem C9_witness :
    printer_win_create_printjob
        { name := "Myrtille PDF", printjob := some { id := 1, docName := "doc" } }
        2 1 3 4 true true =
      (none, { name := "Myrtille PDF", printjob := some { id := 1, docName := "doc" } }) ∧
    ((printer_win_close_printjob
        { name := "Myrtille PDF", printjob := some { id := 1, docName := "doc" } }
        { id := 1, docName := "doc" } 1).1).printjob = none :=
  ⟨C9_printjob.1 _ 2 1 3 4 true true (by decide), C9_printjob.2 _ _ 1⟩

/-! ### Shape lemmas for `wf_myrtille_send_region` -/

/-- `processImage` never touches the ips counter `imageCount`. -/
theorem processImage_count (env : Env) (st : MyrState) (l t r b : Int) (fs : Bool) :
    ((processImage env st l t r b fs).1).imageCount = st.imageCount := by
  simp only [processImage]
  split
  · by_cases hm : st.imageIdx = INT32_MAX <;> simp [hm]
  · split
    · by_cases hm : st.imageIdx = INT32_MAX <;>
        cases hw : env.imageWriteOk <;> simp [sendImage, hm, hw]
    · by_cases hm : st.imageIdx = INT32_MAX <;> simp [hm]

/-- When the ips regulator drops a region update, `wf_myrtille_send_region` only
increments (and possibly wraps) `imageCount` and emits nothing. -/
theorem send_region_drop (env : Env) (st : MyrState) (l t r b : Int)
    (hs : env.sessionId ≠ 0) (hp : env.hasPrimary = true)
    (hb : 0 ≤ l ∧ l ≤ env.desktopWidth ∧ 0 ≤ t ∧ t ≤ env.desktopHeight ∧
      0 ≤ r ∧ r ≤ env.desktopWidth ∧ 0 ≤ b ∧ b ≤ env.desktopHeight ∧ l ≤ r ∧ t ≤ b)
    (hq : st.imageQuantity = 5 ∨ st.imageQuantity = 10 ∨ st.imageQuantity = 20 ∨
      st.imageQuantity = 25 ∨ st.imageQuantity = 50)
    (hm : Int.tmod ((if st.imageCount = INT32_MAX then 0 else st.imageCount) + 1)
        (Int.tdiv 100 st.imageQuantity) ≠ 0) :
    wf_myrtille_send_region env st l t r b =
      ({ st with imageCount :=
          (if st.imageCount = INT32_MAX then 0 else st.imageCount) + 1 }, []) := by
  by_cases hc : st.imageCount = INT32_MAX <;>
    simp only [wf_myrtille_send_region, hc, if_true, if_false, ite_true, ite_false] <;>
    rw [if_neg hs, if_neg (by simp [hp]), if_neg (by omega), if_pos] <;>
    simp_all

/-- When the ips regulator does not drop, `wf_myrtille_send_region` processes
the (possibly client-scaled) region from the state with the updated counter. -/
theorem send_region_proceed (env : Env) (st : MyrState) (l t r b : Int)
    (hs : env.sessionId ≠ 0) (hp : env.hasPrimary = true)
    (hb : 0 ≤ l ∧ l ≤ env.desktopWidth ∧ 0 ≤ t ∧ t ≤ env.desktopHeight ∧
      0 ≤ r ∧ r ≤ env.desktopWidth ∧ 0 ≤ b ∧ b ≤ env.desktopHeight ∧ l ≤ r ∧ t ≤ b)
    (hnd : ¬((st.imageQuantity = 5 ∨ st.imageQuantity = 10 ∨ st.imageQuantity = 20 ∨
        st.imageQuantity = 25 ∨ st.imageQuantity = 50) ∧
      Int.tmod ((if st.imageCount = INT32_MAX then 0 else st.imageCount) + 1)
        (Int.tdiv 100 st.imageQuantity) ≠ 0)) :
    wf_myrtille_send_region env st l t r b =
      (if ¬st.scaleDisplay ∨
          (st.clientWidth = env.desktopWidth ∧ st.clientHeight = env.desktopHeight) then
        processImage env
          { st with imageCount :=
            (if st.imageCount = INT32_MAX then 0 else st.imageCount) + 1 }
          l t r b false
       else
        processImage env
          { st with imageCount :=
            (if st.imageCount = INT32_MAX then 0 else st.imageCount) + 1 }
          (Int.tdiv (l * st.clientWidth) env.desktopWidth)
          (Int.tdiv (t * st.clientHeight) env.desktopHeight)
          (Int.tdiv (r * st.clientWidth) env.desktopWidth)
          (Int.tdiv (b * st.clientHeight) env.desktopHeight) false) := by
  by_cases hc : st.imageCount = INT32_MAX <;>
    simp only [wf_myrtille_send_region, hc, if_true, if_false, ite_true, ite_false] <;>
    rw [if_neg hs, if_neg (by simp [hp]), if_neg (by omega), if_neg (by simp_all)]

/-- `wf_myrtille_send_screen` never touches the ips counter. -/
theorem send_screen_count (env : Env) (st : MyrState) :
    ((wf_myrtille_send_screen env st).1).imageCount = st.imageCount := by
  unfold wf_myrtille_send_screen
  split
  · rfl
  · split
    · rfl
    · exact processImage_count env st 0 0 _ _ true

/-- `wf_myrtille_send_cursor` never touches the ips counter. -/
theorem send_cursor_count (env : Env) (st : MyrState) :
    ((wf_myrtille_send_cursor env st).1).imageCount = st.imageCount := by
  unfold wf_myrtille_send_cursor
  by_cases h0 : env.sessionId = 0
  · simp [h0]
  · by_cases h1 : env.hasPrimary
    · by_cases h2 : env.cursor.bmpOk
      · by_cases hm : st.imageIdx = INT32_MAX <;>
          cases hw : env.imageWriteOk <;>
          simp [h0, h1, h2, hm, hw, sendImage] <;>
          split <;> rfl
      · simp [h0, h1, h2]
    · simp [h0, h1]

/-- The frames emitted by `processImage` do not depend on the ips counter. -/
theorem processImage_events_count (env : Env) (st : MyrState) (l t r b : Int)
    (fs : Bool) (c : Int) :
    (processImage env { st with imageCount := c } l t r b fs).2 =
      (processImage env st l t r b fs).2 := by
  by_cases hm : st.imageIdx = INT32_MAX <;>
    simp only [processImage, hm, ite_true, ite_false] <;>
    split <;>
    first
      | rfl
      | (split <;> rfl)

/-- The frames emitted by `wf_myrtille_send_screen` do not depend on the ips
counter. -/
theorem send_screen_events_count (env : Env) (st : MyrState) (c : Int) :
    (wf_myrtille_send_screen env { st with imageCount := c }).2 =
      (wf_myrtille_send_screen env st).2 := by
  by_cases h0 : env.sessionId = 0
  · simp [wf_myrtille_send_screen, h0]
  · by_cases h1 : env.hasPrimary
    · simp only [wf_myrtille_send_screen, h0, h1, not_true, ite_true, ite_false]
      exact processImage_events_count env st 0 0 _ _ true c
    · simp [wf_myrtille_send_screen, h0, h1]

/-- The frames emitted by `wf_myrtille_send_cursor` do not depend on the ips
counter. -/
theorem send_cursor_events_count (env : Env) (st : MyrState) (c : Int) :
    (wf_myrtille_send_cursor env { st with imageCount := c }).2 =
      (wf_myrtille_send_cursor env st).2 := by
  by_cases h0 : env.sessionId = 0
  · simp [wf_myrtille_send_cursor, h0]
  · by_cases h1 : env.hasPrimary
    · by_cases h2 : env.cursor.bmpOk
      · by_cases hm : st.imageIdx = INT32_MAX <;>
          simp only [wf_myrtille_send_cursor, h0, h1, h2, hm, ite_true, ite_false,
            not_true, not_false_iff] <;>
          first
            | rfl
            | (split <;> rfl)
      · simp [wf_myrtille_send_cursor, h0, h1, h2]
    · simp [wf_myrtille_send_cursor, h0, h1]

/-! ### C3: rate control -/

/-- Iterate `wf_myrtille_send_region` on the fixed in-bounds rectangle
(0,0,4,4), recording for each call whether a frame was emitted. -/
def regionRun (env : Env) : Nat → MyrState → List Bool
  | 0, _ => []
  | Nat.succ n, st =>
    (!(wf_myrtille_send_region env st 0 0 4 4).2.isEmpty) ::
      regionRun env n (wf_myrtille_send_region env st 0 0 4 4).1

/-- The quantity-25 state for the concrete rate-control scenario. -/
def st25 : MyrState := { initState 1024 768 with imageQuantity := 25 }

/-- C3 (confirmed): rate control applies only to region captures.  For quantity
in {5,10,20,25,50}, each in-bounds `send_region` call increments `image_count`
(wrapping at `INT_MAX`) and, when the updated count is not divisible by
`100 / quantity`, emits nothing; with quantity 100 the call always proceeds to
`processImage` on the updated state.  Full-screen and cursor captures neither
read nor write `image_count`.  With quantity 25 and `image_count` 0, eight
successive in-bounds calls emit exactly on the 4th and 8th. -/
theorem C3_rate_control :
    (∀ env st l t r b, env.sessionId ≠ 0 → env.hasPrimary = true →
      (0 ≤ l ∧ l ≤ env.desktopWidth ∧ 0 ≤ t ∧ t ≤ env.desktopHeight ∧
        0 ≤ r ∧ r ≤ env.desktopWidth ∧ 0 ≤ b ∧ b ≤ env.desktopHeight ∧
        l ≤ r ∧ t ≤ b) →
      (st.imageQuantity = 5 ∨ st.imageQuantity = 10 ∨ st.imageQuantity = 20 ∨
        st.imageQuantity = 25 ∨ st.imageQuantity = 50) →
      ((wf_myrtille_send_region env st l t r b).1.imageCount =
        (if st.imageCount = INT32_MAX then 0 else st.imageCount) + 1) ∧
      (Int.tmod ((if st.imageCount = INT32_MAX then 0 else st.imageCount) + 1)
          (Int.tdiv 100 st.imageQuantity) ≠ 0 →
        wf_myrtille_send_region env st l t r b =
          ({ st with imageCount :=
              (if st.imageCount = INT32_MAX then 0 else st.imageCount) + 1 }, []))) ∧
    (∀ env st l t r b, env.sessionId ≠ 0 → env.hasPrimary = true →
      (0 ≤ l ∧ l ≤ env.desktopWidth ∧ 0 ≤ t ∧ t ≤ env.desktopHeight ∧
        0 ≤ r ∧ r ≤ env.desktopWidth ∧ 0 ≤ b ∧ b ≤ env.desktopHeight ∧
        l ≤ r ∧ t ≤ b) →
      st.imageQuantity = 100 →
      wf_myrtille_send_region env st l t r b =
        (if ¬st.scaleDisplay ∨
            (st.clientWidth = env.desktopWidth ∧ st.clientHeight = env.desktopHeight) then
          processImage env
            { st with imageCount :=
              (if st.imageCount = INT32_MAX then 0 else st.imageCount) + 1 }
            l t r b false
         else
          processImage env
            { st with imageCount :=
              (if st.imageCount = INT32_MAX then 0 else st.imageCount) + 1 }
            (Int.tdiv (l * st.clientWidth) env.desktopWidth)
            (Int.tdiv (t * st.clientHeight) env.desktopHeight)
            (Int.tdiv (r * st.clientWidth) env.desktopWidth)
            (Int.tdiv (b * st.clientHeight) env.desktopHeight) false)) ∧
    (∀ env st c,
      ((wf_myrtille_send_screen env st).1).imageCount = st.imageCount ∧
      ((wf_myrtille_send_cursor env st).1).imageCount = st.imageCount ∧
      (wf_myrtille_send_screen env { st with imageCount := c }).2 =
        (wf_myrtille_send_screen env st).2 ∧
      (wf_myrtille_send_cursor env { st with imageCount := c }).2 =
        (wf_myrtille_send_cursor env st).2) ∧
    regionRun baseEnv 8 st25 =
      [false, false, false, true, false, false, false, true] := by
  refine ⟨?_, ?_, ?_, by decide⟩
  · intro env st l t r b hs hp hb hq
    constructor
    · by_cases hm : Int.tmod ((if st.imageCount = INT32_MAX then 0 else st.imageCount) + 1)
          (Int.tdiv 100 st.imageQuantity) ≠ 0
      · rw [send_region_drop env st l t r b hs hp hb hq hm]
      · rw [send_region_proceed env st l t r b hs hp hb (by tauto)]
        split <;> rw [processImage_count]
    · intro hm
      exact send_region_drop env st l t r b hs hp hb hq hm
  · intro env st l t r b hs hp hb h100
    exact send_region_proceed env st l t r b hs hp hb (by simp [h100])
  · intro env st c
    exact ⟨send_screen_count env st, send_cursor_count env st,
      send_screen_events_count env st c, send_cursor_events_count env st c⟩

/-- C3, witness: the drop rule evaluated at quantity 25 from count 0 — the
first call is dropped with the counter at 1. -/
theorem C3_witness :
    ((wf_myrtille_send_region baseEnv st25 0 0 4 4).1.imageCount =
      (if st25.imageCount = INT32_MAX then 0 else st25.imageCount) + 1) ∧
    (Int.tmod ((if st25.imageCount = INT32_MAX then 0 else st25.imageCount) + 1)
        (Int.tdiv 100 st25.imageQuantity) ≠ 0 →
      wf_myrtille_send_region baseEnv st25 0 0 4 4 =
        ({ st25 with imageCount :=
            (if st25.imageCount = INT32_MAX then 0 else st25.imageCount) + 1 }, [])) :=
  C3_rate_control.1 baseEnv st25 0 0 4 4 (by decide) (by decide) (by decide) (by decide)

/-! ### C7: region scaling -/

/-- The 1600 by 1200 desktop environment for the scaling scenario. -/
def c7Env : Env := { baseEnv with desktopWidth := 1600, desktopHeight := 1200 }

/-- Scaling on, 800 by 600 client on a 1600 by 1200 desktop. -/
def c7State : MyrState :=
  { initState 1600 1200 with
    scaleDisplay := true
    clientWidth := 800
    clientHeight := 600 }

/-- The frame emitted for the region (400,300,800,600) under 2:1 scaling. -/
def c7Frame : FrameRec :=
  { idx := 1, posX := 200, posY := 150, width := 200, height := 150, format := 1,
    quality := 100, fullscreen := false, payload := [7] }

/-- C7 (confirmed): with `scale_display` enabled and client dims differing from
the desktop dims, a frame emitted by `send_region` carries the rectangle mapped
to client coordinates by `x' = x * client_w / desktop_w` (C integer division,
symmetric in y), the width and height being the differences of the mapped
edges; concretely, desktop 1600 by 1200, client 800 by 600 and region
(400,300,800,600) emit a frame at position (200,150) with width 200 and
height 150. -/
theorem C7_scaled_region :
    (∀ env st l t r b f, env.sessionId ≠ 0 → env.hasPrimary = true →
      (0 ≤ l ∧ l ≤ env.desktopWidth ∧ 0 ≤ t ∧ t ≤ env.desktopHeight ∧
        0 ≤ r ∧ r ≤ env.desktopWidth ∧ 0 ≤ b ∧ b ≤ env.desktopHeight ∧
        l ≤ r ∧ t ≤ b) →
      st.scaleDisplay = true →
      ¬(st.clientWidth = env.desktopWidth ∧ st.clientHeight = env.desktopHeight) →
      ¬((st.imageQuantity = 5 ∨ st.imageQuantity = 10 ∨ st.imageQuantity = 20 ∨
          st.imageQuantity = 25 ∨ st.imageQuantity = 50) ∧
        Int.tmod ((if st.imageCount = INT32_MAX then 0 else st.imageCount) + 1)
          (Int.tdiv 100 st.imageQuantity) ≠ 0) →
      Event.frame f ∈ (wf_myrtille_send_region env st l t r b).2 →
      f.posX = Int.tdiv (l * st.clientWidth) env.desktopWidth ∧
      f.posY = Int.tdiv (t * st.clientHeight) env.desktopHeight ∧
      f.width = Int.tdiv (r * st.clientWidth) env.desktopWidth -
        Int.tdiv (l * st.clientWidth) env.desktopWidth ∧
      f.height = Int.tdiv (b * st.clientHeight) env.desktopHeight -
        Int.tdiv (t * st.clientHeight) env.desktopHeight) ∧
    ((wf_myrtille_send_region c7Env c7State 400 300 800 600).2 =
        [Event.frame c7Frame] ∧
      c7Frame.posX = 200 ∧ c7Frame.posY = 150 ∧ c7Frame.width = 200 ∧
      c7Frame.height = 150) := by
  constructor
  · intro env st l t r b f hs hp hb hsc hne hnd hf
    rw [send_region_proceed env st l t r b hs hp hb hnd,
      if_neg (by simp [hsc, hne])] at hf
    have he := processImage_emit env _ _ _ _ _ false f hf
    exact ⟨he.1, he.2.1, he.2.2.1, he.2.2.2.1⟩
  · exact ⟨by decide, by decide, by decide, by decide, by decide⟩

/-- C7, witness: the general mapping applied to the concrete 2:1 scenario. -/
theorem C7_witness :
    c7Frame.posX = Int.tdiv (400 * c7State.clientWidth) c7Env.desktopWidth ∧
    c7Frame.posY = Int.tdiv (300 * c7State.clientHeight) c7Env.desktopHeight ∧
    c7Frame.width = Int.tdiv (800 * c7State.clientWidth) c7Env.desktopWidth -
      Int.tdiv (400 * c7State.clientWidth) c7Env.desktopWidth ∧
    c7Frame.height = Int.tdiv (600 * c7State.clientHeight) c7Env.desktopHeight -
      Int.tdiv (300 * c7State.clientHeight) c7Env.desktopHeight :=
  C7_scaled_region.1 c7Env c7State 400 300 800 600 c7Frame (by decide) (by decide)
    (by decide) (by decide) (by decide) (by decide) (by decide)

/-! ### C5: encoding/quality update then fullscreen -/

/-- The frame the FSU record of the C5 batch emits: PNG, quality HIGHEST,
fullscreen. -/
def c5Frame : FrameRec :=
  { idx := 1, posX := 0, posY := 0, width := 1024, height := 768, format := 1,
    quality := 100, fullscreen := true, payload := [7] }

/-- C5, counterexample: after the batch `ECD1\tQLT75\tFSU` the session policy
quality is 75 (HIGHER), not HIGH (50) as the claim states — `QLT75` is applied
after `ECD1` reset the quality to HIGH. -/
theorem C5_counterexample :
    ((processBatch baseEnv (initState 1024 768) (splitTabs "ECD1\tQLT75\tFSU")).1).imageQuality = 75 ∧
    ¬((processBatch baseEnv (initState 1024 768) (splitTabs "ECD1\tQLT75\tFSU")).1).imageQuality = 50 := by
  decide

/-- C5 (amended): processing the batch `ECD1\tQLT75\tFSU` in receive order
leaves the session policy at encoding PNG (1) and quality HIGHER (75) — ECD
resets quality to HIGH, then QLT raises it to 75 — and the FSU record emits
exactly one full-screen frame with format PNG, quality HIGHEST (the PNG rule
overrides), and fullscreen flag set. -/
theorem C5_batch :
    ((processBatch baseEnv (initState 1024 768) (splitTabs "ECD1\tQLT75\tFSU")).1).imageEncoding = 1 ∧
    ((processBatch baseEnv (initState 1024 768) (splitTabs "ECD1\tQLT75\tFSU")).1).imageQuality = 75 ∧
    (processBatch baseEnv (initState 1024 768) (splitTabs "ECD1\tQLT75\tFSU")).2 =
      [Event.frame c5Frame] ∧
    c5Frame.format = 1 ∧ c5Frame.quality = 100 ∧ c5Frame.fullscreen = true := by
  decide

/-! ### C6: extended scancodes -/

/-- C6, counterexample: the key-down of extended scancode 71 is injected as an
extended event, but the key-up `KSC71-0` is silently discarded — no keyboard
event at all is dispatched, contrary to the claim that it is dispatched without
the extended flag. -/
theorem C6_counterexample :
    (dispatch baseEnv (initState 1024 768) "KSC71-1").2 =
      [Event.keyScanEx true true 71] ∧
    (dispatch baseEnv (initState 1024 768) "KSC71-0").2 = [] := by
  decide

/-- C6 (amended): for every KSC command whose scancode is in
{71,72,73,75,77,79,80,81}, key-down (state 1) injects the scancode as an
extended keyboard event; key-up dispatches nothing — the event is dropped, not
sent without the extended flag.  Scancode state is untouched either way. -/
theorem C6_extended_scancodes (s : Int)
    (hs : s = 71 ∨ s = 72 ∨ s = 73 ∨ s = 75 ∨ s = 77 ∨ s = 79 ∨ s = 80 ∨ s = 81) :
    ∀ (env : Env) (st : MyrState),
      dispatch env st ("KSC" ++ toString s ++ "-1") =
        (st, [Event.keyScanEx true true s]) ∧
      dispatch env st ("KSC" ++ toString s ++ "-0") = (st, []) := by
  rcases hs with h | h | h | h | h | h | h | h <;> subst h <;>
    exact fun env st => ⟨rfl, rfl⟩

/-- C6, witness: the extended-scancode rule evaluated at scancode 71. -/
theorem C6_witness :
    dispatch baseEnv (initState 1024 768) ("KSC" ++ toString (71 : Int) ++ "-1") =
      (initState 1024 768, [Event.keyScanEx true true 71]) ∧
    dispatch baseEnv (initState 1024 768) ("KSC" ++ toString (71 : Int) ++ "-0") =
      (initState 1024 768, []) :=
  C6_extended_scancodes 71 (Or.inl rfl) baseEnv (initState 1024 768)

/-! ### C10: CLO in mid-batch -/

/-- `sendMessage` returns the session state unchanged. -/
theorem sendMessage_fst (st : MyrState) (msg : String) (w : Bool) :
    (sendMessage st msg w).1 = st := by
  cases w <;> rfl

/-- `processImage` never raises a cleared `processInputs` flag. -/
theorem processImage_flag_mono (env : Env) (st : MyrState) (l t r b : Int)
    (fs : Bool) (h : st.processInputs = false) :
    ((processImage env st l t r b fs).1).processInputs = false := by
  simp only [processImage]
  split
  · by_cases hm : st.imageIdx = INT32_MAX <;> simp [hm, h]
  · split
    · by_cases hm : st.imageIdx = INT32_MAX <;>
        cases hw : env.imageWriteOk <;> simp [sendImage, hm, hw, h]
    · by_cases hm : st.imageIdx = INT32_MAX <;> simp [hm, h]

/-- `wf_myrtille_send_screen` never raises a cleared `processInputs` flag. -/
theorem send_screen_flag_mono (env : Env) (st : MyrState)
    (h : st.processInputs = false) :
    ((wf_myrtille_send_screen env st).1).processInputs = false := by
  unfold wf_myrtille_send_screen
  split
  · exact h
  · split
    · exact h
    · exact processImage_flag_mono env st 0 0 _ _ true h

/-- No branch of the tag switch raises a cleared `processInputs` flag: only
`CLO` and a failed frame write touch it, and both clear it. -/
theorem dispatchTag_flag_mono (env : Env) (st : MyrState) (tag args : String)
    (h : st.processInputs = false) :
    ((dispatchTag env st tag args).1).processInputs = false := by
  unfold dispatchTag
  repeat' split
  all_goals
    first
      | exact h
      | rfl
      | (rw [sendMessage_fst]; exact h)
      | exact send_screen_flag_mono env st h

/-- No command of the dispatcher raises a cleared `processInputs` flag. -/
theorem dispatch_flag_mono (env : Env) (st : MyrState) (c : String)
    (h : st.processInputs = false) :
    ((dispatch env st c).1).processInputs = false :=
  dispatchTag_flag_mono env st _ _ h

/-- A batch never raises a cleared `processInputs` flag. -/
theorem processBatch_flag_mono (env : Env) (st : MyrState) (cs : List String)
    (h : st.processInputs = false) :
    ((processBatch env st cs).1).processInputs = false := by
  induction cs generalizing st with
  | nil => exact h
  | cons c cs ih => exact ih _ (dispatch_flag_mono env st c h)

/-- Dispatching `CLO` only clears `processInputs` and emits nothing. -/
theorem dispatch_CLO (env : Env) (st : MyrState) :
    dispatch env st "CLO" = ({ st with processInputs := false }, []) := rfl

/-- The batch loop splits over list concatenation: later records run from the
state the earlier records produced. -/
theorem processBatch_append (env : Env) (st : MyrState) (l1 l2 : List String) :
    processBatch env st (l1 ++ l2) =
      ((processBatch env (processBatch env st l1).1 l2).1,
        (processBatch env st l1).2 ++
          (processBatch env (processBatch env st l1).1 l2).2) := by
  induction l1 generalizing st with
  | nil => simp [processBatch]
  | cons c cs ih =>
    simp only [List.cons_append, processBatch, List.append_eq]
    rw [ih]
    simp [List.append_assoc]

/-- C10 (confirmed): a `CLO` record inside a batch only sets `process_inputs`
to false; every record after it in the same batch is still dispatched normally
(the batch result is exactly: run the records before `CLO`, clear the flag,
run the records after), the flag stays false for the rest of the batch, and
the reader exits only when the `while` condition is next evaluated — in the
concrete run the record after `CLO` still produces its mouse event and the
second pending read is never processed. -/
theorem C10_clo_midbatch :
    (∀ (env : Env) (st : MyrState) (pre post : List String),
      processBatch env st (pre ++ "CLO" :: post) =
        ((processBatch env
            { (processBatch env st pre).1 with processInputs := false } post).1,
          (processBatch env st pre).2 ++
            (processBatch env
              { (processBatch env st pre).1 with processInputs := false } post).2)) ∧
    (∀ (env : Env) (st : MyrState) (pre post : List String),
      ((processBatch env
          { (processBatch env st pre).1 with processInputs := false } post).1).processInputs =
        false) ∧
    (readerLoop baseEnv (initState 1024 768)
        [some "MMO1-2\tCLO\tMMO3-4", some "MMO5-6"] =
      ({ initState 1024 768 with processInputs := false },
        [Event.mouse PTR_FLAGS_MOVE 1 2, Event.mouse PTR_FLAGS_MOVE 3 4])) := by
  refine ⟨?_, ?_, by decide⟩
  · intro env st pre post
    rw [processBatch_append]
    simp only [processBatch, dispatch_CLO, List.nil_append]
  · intro env st pre post
    exact processBatch_flag_mono env _ post rfl

end Myrtille
